import Mathlib

/-!
Verification of the react-native-tanstack cache layer.

Shallow embedding of four components:
* KeySpace (query key factory and pattern matcher) — queryKeys source file
* PersistenceCodec (serialize/deserialize with version and age checks) — persister source file
* CacheStrategyRegistry (classification -> CacheConfig table) — QueryClientConfig.ts
* OptimisticMutationController (onMutate/onError/onSettled) — useOptimisticUpdate.ts

JavaScript values appearing as key segments are modelled by `Segment`;
objects carry an explicit reference id so that JS strict equality (`===`,
reference identity on objects) and deep structural equality are both
expressible.  JS `undefined` appearing in a pattern is the wildcard.
-/

/-- A query key segment: a string, a number, a record (object) with a heap
reference id and its fields, or the JS value `undefined` (wildcard in
patterns). -/
inductive Segment where
  | str (s : String)
  | num (n : Int)
  | record (ref : Nat) (fields : List (String × String))
  | wildcard
deriving DecidableEq

/-- JS strict equality `===` on segments: structural on scalars, reference
identity on records, `undefined === undefined` is true. -/
def jsEq : Segment → Segment → Bool
  | .str a, .str b => a = b
  | .num a, .num b => a = b
  | .record r _, .record r2 _ => r = r2
  | .wildcard, .wildcard => true
  | _, _ => false

/-- Deep structural equality on segments: records compare by their fields,
ignoring the reference id; scalars compare structurally. -/
def deepEq : Segment → Segment → Bool
  | .str a, .str b => a = b
  | .num a, .num b => a = b
  | .record _ f, .record _ g => f = g
  | .wildcard, .wildcard => true
  | _, _ => false

/-- The record of key builders returned by `createQueryKeyFactory(resource)`. -/
structure QueryKeyFactory where
  all : List Segment
  lists : List Segment
  list : Option Segment → List Segment
  details : List Segment
  detail : Segment → List Segment
  custom : List Segment → List Segment

/-- Embedding of `createQueryKeyFactory` (queryKeys source file, lines 28–61).
No validation of the resource name is performed anywhere in the source. -/
def createQueryKeyFactory (resource : String) : QueryKeyFactory where
  all := [.str resource]
  lists := [.str resource, .str "list"]
  list filters :=
    match filters with
    | some f => [.str resource, .str "list", f]
    | none => [.str resource, .str "list"]
  details := [.str resource, .str "detail"]
  detail id := [.str resource, .str "detail", id]
  custom args := .str resource :: args

/-- Error type the spec attributes to key construction. -/
inductive KeyError where
  | invalidKey
deriving DecidableEq

/-- Specification-side key builder, following the spec text for `buildKey`:
fails with `InvalidKeyError` if the resource name is empty, otherwise builds
`[resource, ...segments]`.  Written from the spec for comparison with
`createQueryKeyFactory`, which is the code. -/
def buildKeySpec (resource : String) (args : List Segment) :
    Except KeyError (List Segment) :=
  if resource = "" then .error .invalidKey else .ok (.str resource :: args)

/-- Embedding of `createScopedQueryKey` (queryKeys source file, lines 104–110):
the source returns a key whose first segment is the literal string "user". -/
def createScopedQueryKey (scopeId resource : String) (args : List Segment) :
    List Segment :=
  .str "user" :: .str scopeId :: .str resource :: args

/-- One pattern position of `matchQueryKey`: JS `undefined` (the wildcard)
matches anything, otherwise the key segment must be `===`-equal. -/
def segMatches (keySeg patSeg : Segment) : Bool :=
  if patSeg = Segment.wildcard then true else jsEq keySeg patSeg

/-- Embedding of `matchQueryKey` (queryKeys source file, lines 124–134):
false when the pattern is longer than the key, otherwise every pattern
position must be the wildcard or `===`-equal to the key segment there.
`pattern.every((value, index) => ...)` reads `queryKey[index]`, which is the
zip of the key with the pattern since the pattern is no longer. -/
def matchQueryKey (queryKey pat : List Segment) : Bool :=
  if pat.length > queryKey.length then false
  else (queryKey.zip pat).all fun p => segMatches p.1 p.2

/-- Specification-side matcher, following the spec text: pattern no longer
than the key, and each pattern position is the wildcard or DEEP-structurally
equal to the key segment.  Written from the spec for comparison with
`matchQueryKey`, which is the code. -/
def matchSpecDeep (queryKey pat : List Segment) : Bool :=
  decide (pat.length ≤ queryKey.length) &&
    ((queryKey.zip pat).all fun p =>
      (p.2 = Segment.wildcard : Bool) || deepEq p.1 p.2)

/-!  PersistenceCodec.  The stored string is either a string `JSON.parse`
rejects, or the `JSON.stringify` image of `{version, timestamp, data}`, the
only shape `serialize` ever writes; the payload type is opaque. -/

/-- Durable bytes: a malformed string (decode failure) or an encoded
persisted snapshot `{version, timestamp, data}`. -/
inductive Bytes (α : Type) where
  | malformed
  | snapshot (version : String) (timestamp : Int) (data : α)
deriving DecidableEq

/-- Embedding of the persister's `serialize` (persister source file,
lines 184–192): wraps the payload with the buster version and the current
time and encodes it. -/
def serialize {α : Type} (busterVersion : String) (now : Int) (data : α) :
    Bytes α :=
  .snapshot busterVersion now data

/-- Embedding of the persister's `deserialize` (persister source file,
lines 193–226): parse (failure caught, returning `undefined`), then the
version check, then the age check `now - timestamp > maxAge`; every failure
returns `undefined` (`none`), success returns the payload. -/
def deserialize {α : Type} (cached : Bytes α) (busterVersion : String)
    (maxAge : Int) (now : Int) : Option α :=
  match cached with
  | .malformed => none
  | .snapshot ver ts data =>
    if ver ≠ busterVersion then none
    else if now - ts > maxAge then none
    else some data

/-- The failure causes the spec's `deserialize` distinguishes. -/
inductive InvalidCause where
  | decodeError
  | versionMismatch
  | expired
deriving DecidableEq

/-- The spec's tri-state deserialization result: the payload, or an
`Invalid` carrying its cause. -/
inductive DeserializeResult (α : Type) where
  | ok (payload : α)
  | invalid (cause : InvalidCause)
deriving DecidableEq

/-- Forget the cause, keeping only payload versus failure. -/
def DeserializeResult.toOption {α : Type} : DeserializeResult α → Option α
  | .ok a => some a
  | .invalid _ => none

/-- Specification-side deserializer, following the spec text: decode failure
yields `Invalid(DecodeError)`, then a version mismatch yields
`Invalid(VersionMismatch)`, then an over-age snapshot yields
`Invalid(Expired)`, otherwise the payload — in that short-circuit order.
Written from the spec for comparison with `deserialize`, which is the code. -/
def deserializeSpec {α : Type} (cached : Bytes α) (expectedVersion : String)
    (maxAge : Int) (now : Int) : DeserializeResult α :=
  match cached with
  | .malformed => .invalid .decodeError
  | .snapshot ver ts data =>
    if ver ≠ expectedVersion then .invalid .versionMismatch
    else if now - ts > maxAge then .invalid .expired
    else .ok data

/-!  CacheStrategyRegistry: the constants of CacheDefaults.ts and the
`CacheStrategies` table of QueryClientConfig.ts. -/

def TIME_MS.SECOND : Nat := 1000
def TIME_MS.MINUTE : Nat := 60 * 1000
def TIME_MS.HOUR : Nat := 60 * 60 * 1000
def TIME_MS.DAY : Nat := 24 * 60 * 60 * 1000

def DEFAULT_STALE_TIME.REALTIME : Nat := 0
def DEFAULT_STALE_TIME.SHORT : Nat := 5 * TIME_MS.MINUTE
def DEFAULT_STALE_TIME.MEDIUM : Nat := 30 * TIME_MS.MINUTE
def DEFAULT_STALE_TIME.VERY_LONG : Nat := TIME_MS.DAY

def DEFAULT_GC_TIME.VERY_SHORT : Nat := 5 * TIME_MS.MINUTE
def DEFAULT_GC_TIME.MEDIUM : Nat := 2 * TIME_MS.HOUR
def DEFAULT_GC_TIME.LONG : Nat := TIME_MS.DAY
def DEFAULT_GC_TIME.VERY_LONG : Nat := 7 * TIME_MS.DAY

def DEFAULT_RETRY.MINIMAL : Nat := 1
def DEFAULT_RETRY.STANDARD : Nat := 3

/-- The `boolean | always` refetch setting of CacheConfig. -/
inductive RefetchMode where
  | off
  | on
  | always
deriving DecidableEq

/-- Embedding of the `CacheConfig` interface (fields the strategy table
sets; `refetchInterval` is never set by any registered strategy). -/
structure CacheConfig where
  staleTime : Nat
  gcTime : Nat
  refetchOnMount : RefetchMode
  refetchOnWindowFocus : RefetchMode
  refetchOnReconnect : RefetchMode
  retry : Nat
  refetchInterval : Option Nat := none
deriving DecidableEq

/-- Embedding of the `CacheStrategies` record (QueryClientConfig.ts,
lines 19–60), keyed by the classification's runtime string value. -/
def CacheStrategies : List (String × CacheConfig) :=
  [ ("REALTIME",
      { staleTime := DEFAULT_STALE_TIME.REALTIME
        gcTime := DEFAULT_GC_TIME.VERY_SHORT
        refetchOnMount := .always
        refetchOnWindowFocus := .on
        refetchOnReconnect := .on
        retry := DEFAULT_RETRY.MINIMAL }),
    ("USER_DATA",
      { staleTime := DEFAULT_STALE_TIME.MEDIUM
        gcTime := DEFAULT_GC_TIME.LONG
        refetchOnMount := .off
        refetchOnWindowFocus := .off
        refetchOnReconnect := .on
        retry := DEFAULT_RETRY.STANDARD }),
    ("MASTER_DATA",
      { staleTime := DEFAULT_STALE_TIME.VERY_LONG
        gcTime := DEFAULT_GC_TIME.VERY_LONG
        refetchOnMount := .off
        refetchOnWindowFocus := .off
        refetchOnReconnect := .off
        retry := DEFAULT_RETRY.STANDARD }),
    ("PUBLIC_DATA",
      { staleTime := DEFAULT_STALE_TIME.MEDIUM
        gcTime := DEFAULT_GC_TIME.LONG
        refetchOnMount := .off
        refetchOnWindowFocus := .off
        refetchOnReconnect := .on
        retry := DEFAULT_RETRY.STANDARD }),
    ("CUSTOM",
      { staleTime := DEFAULT_STALE_TIME.SHORT
        gcTime := DEFAULT_GC_TIME.MEDIUM
        refetchOnMount := .off
        refetchOnWindowFocus := .off
        refetchOnReconnect := .on
        retry := DEFAULT_RETRY.STANDARD }) ]

/-- Association-list lookup by string key, mirroring JS member access
`CacheStrategies[strategy]`, which yields `undefined` on an absent key. -/
def lookupStrategy : List (String × CacheConfig) → String → Option CacheConfig
  | [], _ => none
  | (k, v) :: rest, s => if k = s then some v else lookupStrategy rest s

/-- Embedding of `getCacheStrategy` (QueryClientConfig.ts, lines 146–148):
plain member access on the `CacheStrategies` record, no error path. -/
def getCacheStrategy (strategy : String) : Option CacheConfig :=
  lookupStrategy CacheStrategies strategy

/-!  OptimisticMutationController: the cache-facing effects of the
`useOptimisticUpdate` callbacks, over an explicit execution-engine state
(cached entries plus the recorded cancel and invalidate calls). -/

/-- The execution engine state visible to the hook: the cached entries, the
keys passed to `cancelQueries`, and the keys passed to `invalidateQueries`
(most recent first). -/
structure EngineState (κ α : Type) where
  cache : List (κ × α)
  cancelled : List κ
  invalidated : List κ
deriving DecidableEq

/-- Write-through update of the cached entries: replace the entry at the
key, or append one. -/
def setEntry {κ α : Type} [DecidableEq κ] :
    List (κ × α) → κ → α → List (κ × α)
  | [], k, v => [(k, v)]
  | (k0, v0) :: rest, k, v =>
    if k0 = k then (k, v) :: rest else (k0, v0) :: setEntry rest k v

/-- Lookup in the cached entries. -/
def findValue {κ α : Type} [DecidableEq κ] : List (κ × α) → κ → Option α
  | [], _ => none
  | (k0, v0) :: rest, k => if k0 = k then some v0 else findValue rest k

/-- `queryClient.getQueryData(queryKey)`. -/
def readCached {κ α : Type} [DecidableEq κ] (s : EngineState κ α) (k : κ) :
    Option α :=
  findValue s.cache k

/-- `queryClient.setQueryData(queryKey, value)`. -/
def writeCached {κ α : Type} [DecidableEq κ] (s : EngineState κ α) (k : κ)
    (v : α) : EngineState κ α :=
  { s with cache := setEntry s.cache k v }

/-- `queryClient.cancelQueries({queryKey})`: records the cancellation;
touches no cached entry. -/
def cancelQueries {κ α : Type} (s : EngineState κ α) (k : κ) :
    EngineState κ α :=
  { s with cancelled := k :: s.cancelled }

/-- `queryClient.invalidateQueries({queryKey})`: records the invalidation;
touches no cached entry. -/
def invalidateQueries {κ α : Type} (s : EngineState κ α) (k : κ) :
    EngineState κ α :=
  { s with invalidated := k :: s.invalidated }

/-- The context `onMutate` returns for rollback: the snapshotted previous
value, `none` when the key had no cached value. -/
structure MutationContext (α : Type) where
  previousData : Option α
deriving DecidableEq

/-- Embedding of the hook's `onMutate` (useOptimisticUpdate.ts,
lines 58–78): cancel in-flight reads for the key, snapshot the previous
value, and only when it is present write `updater(previous, vars)`
into the cache; return the snapshot as context. -/
def onMutate {κ α β : Type} [DecidableEq κ] (queryKey : κ)
    (updater : α → β → α) (vars : β) (s : EngineState κ α) :
    MutationContext α × EngineState κ α :=
  let s1 := cancelQueries s queryKey
  let previousData := readCached s1 queryKey
  match previousData with
  | some prev =>
    (⟨some prev⟩, writeCached s1 queryKey (updater prev vars))
  | none => (⟨none⟩, s1)

/-- Embedding of the hook's `onError` rollback (useOptimisticUpdate.ts,
lines 79–94): when the context holds a previous value, write it back to the
key; otherwise do nothing. -/
def onError {κ α : Type} [DecidableEq κ] (queryKey : κ)
    (context : MutationContext α) (s : EngineState κ α) : EngineState κ α :=
  match context.previousData with
  | some prev => writeCached s queryKey prev
  | none => s

/-- Embedding of the hook's `onSettled` (useOptimisticUpdate.ts,
lines 95–105): invalidate the key exactly when `invalidateOnSuccess` is set
and no error occurred. -/
def onSettled {κ α : Type} [DecidableEq κ] (queryKey : κ)
    (invalidateOnSuccess : Bool) (error : Bool) (s : EngineState κ α) :
    EngineState κ α :=
  if invalidateOnSuccess && !error then invalidateQueries s queryKey else s

/-- The hook's default for `invalidateOnSuccess` (useOptimisticUpdate.ts,
line 54). -/
def invalidateOnSuccessDefault : Bool := true

/-- Concrete engine state for witnesses: key 1 caches the value 5. -/
def stPresent : EngineState Nat Nat := ⟨[(1, 5)], [], []⟩

/-- Concrete engine state for witnesses: key 1 has no cached value. -/
def stAbsent : EngineState Nat Nat := ⟨[(2, 5)], [], []⟩

/-!  Helper lemmas. -/

/-- Splitting a bounded quantifier at the head index. -/
theorem forall_lt_succ_head {n : Nat} {Q : Nat → Prop} :
    (∀ i, i < n + 1 → Q i) ↔ Q 0 ∧ ∀ i, i < n → Q (i + 1) := by
  constructor
  · intro h
    exact ⟨h 0 (Nat.succ_pos n), fun i hi => h (i + 1) (Nat.succ_lt_succ hi)⟩
  · rintro ⟨h0, h⟩ i hi
    cases i with
    | zero => exact h0
    | succ j => exact h j (Nat.lt_of_succ_lt_succ hi)

/-- The matcher steps through one position at a time. -/
theorem matchQueryKey_cons (b a : Segment) (k2 p2 : List Segment) :
    matchQueryKey (b :: k2) (a :: p2) = (segMatches b a && matchQueryKey k2 p2) := by
  by_cases h : p2.length > k2.length
  · simp only [matchQueryKey, List.length_cons]
    rw [if_pos (by omega), if_pos h, Bool.and_false]
  · simp only [matchQueryKey, List.length_cons]
    rw [if_neg (by omega), if_neg h]
    simp [List.all_cons]

/-- Unfolding one pattern position of the matcher. -/
theorem segMatches_eq_true (b a : Segment) :
    segMatches b a = true ↔ (a = Segment.wildcard ∨ jsEq b a = true) := by
  unfold segMatches
  by_cases h : a = Segment.wildcard <;> simp [h]

/-- Writing an entry then looking the key up yields the written value. -/
theorem findValue_setEntry_self {κ α : Type} [DecidableEq κ]
    (l : List (κ × α)) (k : κ) (v : α) :
    findValue (setEntry l k v) k = some v := by
  induction l with
  | nil => simp [setEntry, findValue]
  | cons hd t ih =>
    obtain ⟨k0, v0⟩ := hd
    by_cases hk : k0 = k
    · simp [setEntry, findValue, hk]
    · simp [setEntry, findValue, hk, ih]

/-- A cache write is immediately visible to a read of the same key. -/
theorem readCached_writeCached_self {κ α : Type} [DecidableEq κ]
    (s : EngineState κ α) (k : κ) (v : α) :
    readCached (writeCached s k v) k = some v :=
  findValue_setEntry_self s.cache k v

/-- Unfolding `onMutate` when the key holds a cached value. -/
theorem onMutate_present {κ α β : Type} [DecidableEq κ] (K : κ)
    (u : α → β → α) (vars : β) (s : EngineState κ α) (v : α)
    (h : readCached s K = some v) :
    onMutate K u vars s
      = (⟨some v⟩, writeCached (cancelQueries s K) K (u v vars)) := by
  have hc : readCached (cancelQueries s K) K = some v := h
  simp only [onMutate, hc]

/-- Unfolding `onMutate` when the key has no cached value. -/
theorem onMutate_absent {κ α β : Type} [DecidableEq κ] (K : κ)
    (u : α → β → α) (vars : β) (s : EngineState κ α)
    (h : readCached s K = none) :
    onMutate K u vars s = (⟨none⟩, cancelQueries s K) := by
  have hc : readCached (cancelQueries s K) K = none := h
  simp only [onMutate, hc]

/-!  Claim theorems. -/

/-- Claim C1, counterexample: a version-mismatched snapshot and an expired
snapshot have different causes under the spec's tri-state result, yet the
code's `deserialize` returns the same value (`undefined`) for both, so the
caller cannot distinguish the failure cause from the result. -/
theorem deserialize_cause_indistinguishable :
    deserializeSpec (Bytes.snapshot "2" 0 (0 : Nat)) "1" 10 5
      = DeserializeResult.invalid InvalidCause.versionMismatch
    ∧ deserializeSpec (Bytes.snapshot "1" 0 (0 : Nat)) "1" 10 100
      = DeserializeResult.invalid InvalidCause.expired
    ∧ deserialize (Bytes.snapshot "2" 0 (0 : Nat)) "1" 10 5
      = deserialize (Bytes.snapshot "1" 0 (0 : Nat)) "1" 10 100 := by
  decide

/-- Claim C1, amended: `deserialize` validates in the spec's short-circuit
order decode then version then age — it equals the spec's tri-state
deserializer with the cause erased — but every failure returns the single
value `undefined` (`none`), so the cause is not recoverable from the
result. -/
theorem deserialize_refines_spec_forgetting_cause {α : Type} (cached : Bytes α)
    (v : String) (maxAge now : Int) :
    deserialize cached v maxAge now
      = (deserializeSpec cached v maxAge now).toOption := by
  cases cached with
  | malformed => rfl
  | snapshot ver ts d =>
    by_cases h1 : ver = v
    · by_cases h2 : now - ts > maxAge
      · simp [deserialize, deserializeSpec, h1, h2, DeserializeResult.toOption]
      · simp [deserialize, deserializeSpec, h1, h2, DeserializeResult.toOption]
    · simp [deserialize, deserializeSpec, h1, DeserializeResult.toOption]

/-- Claim C2, counterexample: the factory succeeds on the empty resource
name, returning the key `[""]`, where the spec-side builder demands an
`InvalidKeyError` failure. -/
theorem createQueryKeyFactory_empty_resource_succeeds :
    (createQueryKeyFactory "").custom [] = [Segment.str ""]
    ∧ buildKeySpec "" [] = Except.error KeyError.invalidKey :=
  ⟨rfl, rfl⟩

/-- Claim C2, amended: the factory performs no validation at all — for
every resource name, the empty string included, key construction succeeds,
`custom(args)` returning `[resource, ...args]` and `all()` returning
`[resource]`; no error path exists. -/
theorem createQueryKeyFactory_no_validation (resource : String)
    (args : List Segment) :
    (createQueryKeyFactory resource).custom args = Segment.str resource :: args
    ∧ (createQueryKeyFactory resource).all = [Segment.str resource] :=
  ⟨rfl, rfl⟩

/-- Claim C3, counterexample: a pattern whose record segment is
deep-structurally equal to the key's record but a different object
reference does NOT match under the code's `===` comparison, refuting the
claimed deep-structural matching. -/
theorem matchQueryKey_not_deep_structural :
    matchQueryKey [Segment.record 0 [("a", "1")]]
        [Segment.record 1 [("a", "1")]] = false
    ∧ matchSpecDeep [Segment.record 0 [("a", "1")]]
        [Segment.record 1 [("a", "1")]] = true := by
  decide

/-- Claim C3, amended: `matchQueryKey(key, pattern)` is true iff the
pattern is no longer than the key and at every pattern position the
segment is the wildcard (`undefined`) or JS-strict-equal (`===`, reference
identity for records, not deep structural equality) to the key's segment
there. -/
theorem matchQueryKey_iff_strictEq (queryKey pat : List Segment) :
    matchQueryKey queryKey pat = true ↔
      pat.length ≤ queryKey.length ∧
        ∀ i, i < pat.length →
          (pat.getD i Segment.wildcard = Segment.wildcard ∨
            jsEq (queryKey.getD i Segment.wildcard)
              (pat.getD i Segment.wildcard) = true) := by
  induction pat generalizing queryKey with
  | nil => simp [matchQueryKey]
  | cons a p2 ih =>
    cases queryKey with
    | nil => simp [matchQueryKey]
    | cons b k2 =>
      rw [matchQueryKey_cons, Bool.and_eq_true, ih k2]
      simp only [List.length_cons, List.getD_cons_zero, List.getD_cons_succ,
        forall_lt_succ_head, segMatches_eq_true, Nat.add_le_add_iff_right]
      tauto

/-- Claim C4, counterexample: looking up an unregistered classification
silently returns the absent value rather than failing with any error. -/
theorem getCacheStrategy_silent_absent :
    getCacheStrategy "SESSION" = none := by
  decide

/-- Claim C4, amended: for every classification outside the five
registered ones, `getCacheStrategy` silently returns the absent value
(`undefined`); no `UnknownStrategyError` or other error path exists in the
code. -/
theorem getCacheStrategy_unknown_is_none (s : String)
    (h1 : s ≠ "REALTIME") (h2 : s ≠ "USER_DATA") (h3 : s ≠ "MASTER_DATA")
    (h4 : s ≠ "PUBLIC_DATA") (h5 : s ≠ "CUSTOM") :
    getCacheStrategy s = none := by
  simp [getCacheStrategy, CacheStrategies, lookupStrategy,
    Ne.symm h1, Ne.symm h2, Ne.symm h3, Ne.symm h4, Ne.symm h5]

/-- Witness for the amended claim C4 at the concrete classification
"LEGACY". -/
theorem getCacheStrategy_unknown_is_none_witness :
    getCacheStrategy "LEGACY" = none :=
  getCacheStrategy_unknown_is_none "LEGACY" (by decide) (by decide)
    (by decide) (by decide) (by decide)

/-- Claim C5, counterexample: the scoped key builder puts the literal
string "user", not "scope", in the first segment. -/
theorem createScopedQueryKey_not_scope :
    createScopedQueryKey "u1" "posts" []
      = [Segment.str "user", Segment.str "u1", Segment.str "posts"]
    ∧ createScopedQueryKey "u1" "posts" []
      ≠ [Segment.str "scope", Segment.str "u1", Segment.str "posts"] :=
  ⟨rfl, by decide⟩

/-- Claim C5, amended: for every scopeId, resource and extra segments,
`createScopedQueryKey` returns exactly `["user", scopeId, resource,
...extra]` — the first segment is the literal string "user". -/
theorem createScopedQueryKey_first_segment_user (scopeId resource : String)
    (extra : List Segment) :
    createScopedQueryKey scopeId resource extra
      = Segment.str "user" :: Segment.str scopeId
          :: Segment.str resource :: extra :=
  rfl

/-- Claim C6: deserializing the bytes produced by `serialize` with the
same version, at any time between serialization and maxAge after it,
returns exactly the serialized payload. -/
theorem deserialize_serialize_roundtrip {α : Type} (v : String) (t0 : Int)
    (d : α) (maxAge now : Int) (h1 : t0 ≤ now) (h2 : now ≤ t0 + maxAge) :
    deserialize (serialize v t0 d) v maxAge now = some d := by
  have h3 : ¬ (now - t0 > maxAge) := by omega
  simp [serialize, deserialize, h3]

/-- Witness for claim C6 at concrete values. -/
theorem deserialize_serialize_roundtrip_witness :
    deserialize (serialize "1" 100 (42 : Nat)) "1" 10 105 = some 42 :=
  deserialize_serialize_roundtrip "1" 100 42 10 105 (by decide) (by decide)

/-- Claim C7: the age window is inclusive at its upper bound — a snapshot
serialized at t0 with matching version is still restored at exactly
t0 + maxAge, and is invalid at t0 + maxAge + 1, the failing check being
the age check (the spec-side cause is Expired). -/
theorem deserialize_age_boundary_inclusive {α : Type} (v : String)
    (t0 : Int) (d : α) (maxAge : Int) :
    deserialize (serialize v t0 d) v maxAge (t0 + maxAge) = some d
    ∧ deserialize (serialize v t0 d) v maxAge (t0 + maxAge + 1) = none
    ∧ deserializeSpec (serialize v t0 d) v maxAge (t0 + maxAge + 1)
        = DeserializeResult.invalid InvalidCause.expired := by
  have h1 : ¬ (t0 + maxAge - t0 > maxAge) := by omega
  have h2 : t0 + maxAge + 1 - t0 > maxAge := by omega
  refine ⟨?_, ?_, ?_⟩ <;>
    simp [serialize, deserialize, deserializeSpec, h1, h2]

/-- Claim C8: when the key holds a cached value v, `onMutate` snapshots v
and immediately writes `updater(v, vars)` into the cache, observable to
any reader; a subsequent `onError` with that context writes the
snapshotted v back exactly. -/
theorem optimistic_apply_and_rollback {κ α β : Type} [DecidableEq κ]
    (s : EngineState κ α) (K : κ) (v : α) (u : α → β → α) (vars : β)
    (h : readCached s K = some v) :
    readCached (onMutate K u vars s).2 K = some (u v vars)
    ∧ (onMutate K u vars s).1.previousData = some v
    ∧ readCached (onError K (onMutate K u vars s).1
        (onMutate K u vars s).2) K = some v := by
  rw [onMutate_present K u vars s v h]
  exact ⟨readCached_writeCached_self _ _ _, rfl,
    readCached_writeCached_self _ _ _⟩

/-- Witness for claim C8: cached value 5 at key 1, delta 1, optimistic
value 6, rollback restores 5. -/
theorem optimistic_apply_and_rollback_witness :
    readCached (onMutate 1 (fun (x d : Nat) => x + d) 1 stPresent).2 1 = some 6
    ∧ (onMutate 1 (fun (x d : Nat) => x + d) 1 stPresent).1.previousData = some 5
    ∧ readCached (onError 1 (onMutate 1 (fun (x d : Nat) => x + d) 1 stPresent).1
        (onMutate 1 (fun (x d : Nat) => x + d) 1 stPresent).2) 1 = some 5 := by
  simpa using optimistic_apply_and_rollback stPresent 1 5
    (fun (x d : Nat) => x + d) 1 (by decide)

/-- Claim C9: under the default `invalidateOnSuccess` configuration,
`onSettled` records an invalidation of the key iff no error occurred, and
never touches the cached entries (in particular it does not restore the
previous value). -/
theorem onSettled_invalidate_iff_success {κ α : Type} [DecidableEq κ]
    (s : EngineState κ α) (K : κ) (error : Bool) :
    (onSettled K invalidateOnSuccessDefault error s).invalidated
        = (if error then s.invalidated else K :: s.invalidated)
    ∧ (onSettled K invalidateOnSuccessDefault error s).cache = s.cache := by
  cases error <;>
    simp [onSettled, invalidateOnSuccessDefault, invalidateQueries]

/-- Claim C10: when the key has no cached value, `onMutate` records an
absent snapshot, leaves the cached entries unchanged, and the resulting
context makes `onError` a no-op on any state. -/
theorem absent_snapshot_frame {κ α β : Type} [DecidableEq κ]
    (s : EngineState κ α) (K : κ) (u : α → β → α) (vars : β)
    (h : readCached s K = none) :
    (onMutate K u vars s).1.previousData = none
    ∧ (onMutate K u vars s).2.cache = s.cache
    ∧ ∀ t : EngineState κ α, onError K (onMutate K u vars s).1 t = t := by
  rw [onMutate_absent K u vars s h]
  exact ⟨rfl, rfl, fun t => rfl⟩

/-- Witness for claim C10 at a concrete state with no value at key 1. -/
theorem absent_snapshot_frame_witness :
    (onMutate 1 (fun (x d : Nat) => x + d) 0 stAbsent).1.previousData = none
    ∧ (onMutate 1 (fun (x d : Nat) => x + d) 0 stAbsent).2.cache = stAbsent.cache
    ∧ onError 1 (onMutate 1 (fun (x d : Nat) => x + d) 0 stAbsent).1 stPresent
        = stPresent := by
  have h := absent_snapshot_frame stAbsent 1 (fun (x d : Nat) => x + d) 0
    (by decide)
  exact ⟨h.1, h.2.1, h.2.2 stPresent⟩
